import Mathlib

/-!
Shallow embedding of the Fleet Compliance and Derived-State Engine of the
vehicle_management repository (src/app.py, src/models.py), together with
proofs of the frozen claims about it.

The embedding mirrors:
  - the dashboard computation (src/app.py, get_dashboard, lines 157-299):
    inspection due-date rules, maintenance due rule, reminder classification
    and the final sorts;
  - the asset state reduction (src/app.py, get_asset_log_list, lines
    1517-1548);
  - the fee-generation policy inside create_or_update_maintenance
    (lines 879-924) and create_or_update_inspection (lines 1162-1207).

Dates are modelled as proleptic-Gregorian triples; the calendar arithmetic
(add N months with end-of-month clamping, whole-elapsed-year age) mirrors
dateutil.relativedelta as used by the source, and day differences mirror
datetime.date subtraction.
-/

namespace VehicleMgmt

/-- calendar date, as in Python datetime.date (year, month, day). -/
structure Date where
  year : Int
  month : Nat
  day : Nat
deriving DecidableEq, Repr

/-- strict lexicographic order on dates, as Python compares date objects. -/
def Date.blt (a b : Date) : Bool :=
  decide (a.year < b.year) ||
    (decide (a.year = b.year) &&
      (decide (a.month < b.month) ||
        (decide (a.month = b.month) && decide (a.day < b.day))))

/-- non-strict order on dates; for the total lexicographic order this is the
negation of the reversed strict order. -/
def Date.ble (a b : Date) : Bool := !(Date.blt b a)

/-- leap year test of the Gregorian calendar (calendar.isleap). -/
def isLeapYear (y : Int) : Bool :=
  y % 4 == 0 && (y % 100 != 0 || y % 400 == 0)

/-- number of days in a month (calendar.monthrange second component). -/
def daysInMonth (y : Int) (m : Nat) : Nat :=
  if m = 2 then (if isLeapYear y then 29 else 28)
  else if m = 4 ∨ m = 6 ∨ m = 9 ∨ m = 11 then 30
  else 31

/-- date plus n calendar months with end-of-month day clamping, as
dateutil.relativedelta(months := n) added to a date. -/
def Date.addMonths (d : Date) (n : Int) : Date :=
  let total : Int := d.year * 12 + (d.month : Int) - 1 + n
  let y : Int := Int.ediv total 12
  let m : Nat := (Int.emod total 12).toNat + 1
  { year := y, month := m, day := min d.day (daysInMonth y m) }

/-- date plus n calendar years, as dateutil.relativedelta(years := n); equal
to adding 12 n months (same target month, day clamped the same way). -/
def Date.addYears (d : Date) (n : Int) : Date := d.addMonths (12 * n)

/-- whole month difference of two dates, as dateutil.relativedelta(dt1, dt2)
computes its months total: start from the year-month difference and correct
by one step so that dt2 plus the result does not overshoot dt1. -/
def monthsBetween (dt1 dt2 : Date) : Int :=
  let m0 : Int := (dt1.year - dt2.year) * 12 + ((dt1.month : Int) - (dt2.month : Int))
  if dt2.ble dt1 then
    (if (dt2.addMonths m0).ble dt1 then m0 else m0 - 1)
  else
    (if dt1.ble (dt2.addMonths m0) then m0 else m0 + 1)

/-- whole year difference, as the years component of
dateutil.relativedelta(dt1, dt2): the months total divided by 12, truncated
toward zero. -/
def yearsBetween (dt1 dt2 : Date) : Int :=
  let m := monthsBetween dt1 dt2
  if 0 ≤ m then ((m.toNat / 12 : Nat) : Int) else -(((-m).toNat / 12 : Nat) : Int)

/-- proleptic-Gregorian day number of a date (days-from-civil algorithm);
differences of these model datetime.date subtraction in days. -/
def Date.toDays (d : Date) : Int :=
  let y : Int := if d.month ≤ 2 then d.year - 1 else d.year
  let era : Int := Int.ediv y 400
  let yoe : Int := y - era * 400
  let mp : Int := (d.month : Int) + (if 2 < d.month then -3 else 9)
  let doy : Int := Int.ediv (153 * mp + 2) 5 + (d.day : Int) - 1
  let doe : Int := yoe * 365 + Int.ediv yoe 4 - Int.ediv yoe 100 + doy
  era * 146097 + doe - 719468

/-! Entity model, mirroring src/models.py. -/

/-- vehicle type enumeration (models.VehicleType). -/
inductive VehicleType
  | car | motorcycle | van | truck | ev_scooter
deriving DecidableEq, Repr

/-- vehicle status enumeration (models.VehicleStatus). -/
inductive VehicleStatus
  | active | maintenance | retired
deriving DecidableEq, Repr

/-- maintenance category enumeration (models.MaintenanceCategory). -/
inductive MaintenanceCategory
  | maintenance | repair | carwash | deep_cleaning | ritual_cleaning
deriving DecidableEq, Repr

/-- inspection kind enumeration (models.InspectionKind). -/
inductive InspectionKind
  | periodic | emission | reinspection
deriving DecidableEq, Repr

/-- asset type enumeration (models.AssetType). -/
inductive AssetType
  | key | dashcam | etag | other
deriving DecidableEq, Repr

/-- asset status enumeration (models.AssetStatus). -/
inductive AssetStatus
  | assigned | returned | lost | disposed
deriving DecidableEq, Repr

/-- fee type enumeration (models.FeeType). -/
inductive FeeType
  | fuel_fee | parking | maintenance_service | repair_parts | inspection_fee
  | supplies | toll | license_tax | other
deriving DecidableEq, Repr

/-- string value of an asset type, as the .value of the Python str enum. -/
def AssetType.value : AssetType → String
  | .key => "key" | .dashcam => "dashcam" | .etag => "etag" | .other => "other"

/-- string value of an asset status, as the .value of the Python str enum. -/
def AssetStatus.value : AssetStatus → String
  | .assigned => "assigned" | .returned => "returned"
  | .lost => "lost" | .disposed => "disposed"

/-- maintenance category translation (app.MAINTENANCE_CATEGORY_MAP, which is
total on the enumeration, so the .get default never fires). -/
def maintenanceCategoryMap : MaintenanceCategory → String
  | .maintenance => "定期保養" | .repair => "維修" | .carwash => "一般洗車"
  | .deep_cleaning => "手工洗車" | .ritual_cleaning => "淨車"

/-- inspection kind translation (app.INSPECTION_KIND_MAP, total on the
enumeration). -/
def inspectionKindMap : InspectionKind → String
  | .periodic => "定期檢驗" | .emission => "排氣檢驗" | .reinspection => "複檢"

/-- a maintenance event row (models.Maintenance); employee references are
abstracted to numeric identifiers, the Numeric(12,2) amount to a rational. -/
structure Maintenance where
  vehicle_id : Nat
  user_id : Option Nat
  handler_id : Option Nat
  category : MaintenanceCategory
  vendor : Option String
  performed_on : Option Date
  return_date : Option Date
  service_target_km : Option Int
  odometer_km : Option Int
  amount : Option Rat
  is_reconciled : Bool
  notes : Option String
  handler_notes : Option String
deriving DecidableEq, Repr

/-- an inspection event row (models.Inspection). -/
structure Inspection where
  vehicle_id : Nat
  user_id : Option Nat
  handler_id : Option Nat
  kind : InspectionKind
  result : Option String
  notification_date : Option Date
  notification_source : Option String
  deadline_date : Option Date
  inspected_on : Option Date
  return_date : Option Date
  next_due_on : Option Date
  amount : Option Rat
  is_reconciled : Bool
  notes : Option String
  handler_notes : Option String
deriving DecidableEq, Repr

/-- a vehicle together with its loaded inspection and maintenance histories,
as the dashboard query materialises it (models.Vehicle with the joinedload
relationships; columns the engine never reads are omitted). -/
structure Vehicle where
  plate_no : String
  vehicle_type : VehicleType
  manufacture_date : Option Date
  status : VehicleStatus
  inspections : List Inspection
  maintenance : List Maintenance
deriving DecidableEq, Repr

/-- an asset custody event row (models.VehicleAssetLog). -/
structure VehicleAssetLog where
  user_id : Option Nat
  asset_type : AssetType
  description : Option String
  status : AssetStatus
  log_date : Date
deriving DecidableEq, Repr

/-- a fee row (models.Fee); only the columns the fee-generation policy sets
are modelled. -/
structure Fee where
  vehicle_id : Option Nat
  user_id : Option Nat
  receive_date : Option Date
  request_date : Option Date
  fee_type : FeeType
  amount : Option Rat
  is_paid : Bool
  notes : String
deriving DecidableEq, Repr

/-! Dashboard computation (src/app.py get_dashboard, lines 157-299). -/

/-- zero-padded two-digit rendering of a number, for strftime day and month
fields. -/
def pad2 (n : Nat) : String := if n < 10 then "0" ++ toString n else toString n

/-- zero-padded four-digit rendering of a year, for the strftime year
field. -/
def pad4 (y : Int) : String :=
  let n := y.toNat
  (if n < 10 then "000" else if n < 100 then "00" else if n < 1000 then "0" else "")
    ++ toString n

/-- date rendering as in strftime with the pattern year-month-day. -/
def formatDate (d : Date) : String :=
  pad4 d.year ++ "-" ++ pad2 d.month ++ "-" ++ pad2 d.day

/-- one step of the running maximum of completed inspection dates: records
with a null inspected_on are skipped, a later date replaces the current
maximum (get_dashboard lines 184-192; Python max keeps the first maximal
element, and only the date is consumed downstream). -/
def lastInspStep (acc : Option Date) (i : Inspection) : Option Date :=
  match i.inspected_on with
  | none => acc
  | some d =>
    match acc with
    | none => some d
    | some m => if m.blt d then some d else some m

/-- date of the most recent completed inspection, as the fold of the running
maximum over the records. -/
def lastInspectedOn (inspections : List Inspection) : Option Date :=
  inspections.foldl lastInspStep none

/-- the inspection rule table (get_dashboard lines 197-241): vehicle type and
whole-year age determine a cadence label and the next due date, from the last
completed inspection date when one exists, else from the manufacture date. -/
def inspectionRule (vt : VehicleType) (age : Int) (md : Date) (last : Option Date) :
    String × Option Date :=
  match vt with
  | .car =>
    if age < 5 then ("車齡 < 5 年 (免驗)", none)
    else if age < 10 then
      ("每年 1 驗",
        some (match last with | some d => d.addYears 1 | none => md.addYears 5))
    else
      ("每年 2 驗",
        some (match last with | some d => d.addMonths 6 | none => md.addYears 10))
  | .motorcycle | .ev_scooter =>
    if age < 5 then ("車齡 < 5 年 (免驗)", none)
    else
      ("每年 1 驗",
        some (match last with | some d => d.addYears 1 | none => md.addYears 5))
  | .truck | .van =>
    if age < 5 then
      ("每年 1 驗",
        some (match last with | some d => d.addYears 1 | none => md.addYears 1))
    else
      ("每年 2 驗",
        some (match last with | some d => d.addMonths 6 | none => md.addYears 5))

/-- next inspection due date of a vehicle: none when the manufacture date is
missing (the vehicle is skipped), else the rule table output. -/
def vehicleNextDue (today : Date) (v : Vehicle) : Option Date :=
  match v.manufacture_date with
  | none => none
  | some md =>
    (inspectionRule v.vehicle_type (yearsBetween today md) md
      (lastInspectedOn v.inspections)).2

/-- an entry of the inspection reminder list (app.InspectionReminder). -/
structure InspectionReminder where
  vehicle : Vehicle
  status : String
  last_inspection_date : Option Date
  next_due_date : Option Date
  is_overdue : Bool
deriving DecidableEq, Repr

/-- an entry of the maintenance reminder list (app.MaintenanceReminder). -/
structure MaintenanceReminder where
  vehicle : Vehicle
  status : String
  last_maintenance_date : Option Date
  last_maintenance_km : Option Int
deriving DecidableEq, Repr

/-- the reminder lookahead threshold: today plus the one-month buffer
(get_dashboard lines 160-161). -/
def reminderThreshold (today : Date) : Date := today.addMonths 1

/-- inspection reminder for one active vehicle (get_dashboard lines 180-257):
produced exactly when a due date was computed and lies within the buffer;
overdue when the due date is strictly before today. -/
def vehicleInspectionReminder (today : Date) (v : Vehicle) :
    Option InspectionReminder :=
  match v.manufacture_date with
  | none => none
  | some md =>
    let last := lastInspectedOn v.inspections
    match (inspectionRule v.vehicle_type (yearsBetween today md) md last).2 with
    | none => none
    | some due =>
      if due.ble (reminderThreshold today) then
        let od := due.blt today
        some
          { vehicle := v
            status :=
              (if od then "已逾期 (應驗日: " else "即將到期 (應驗日: ")
                ++ formatDate due ++ ")"
            last_inspection_date := last
            next_due_date := some due
            is_overdue := od }
      else none

/-- one step of the running maximum of routine maintenance records: only
records whose category is the routine maintenance category and whose
performed_on is non-null participate, compared by performed_on
(get_dashboard lines 262-269). -/
def lastRoutineStep (acc : Option (Maintenance × Date)) (m : Maintenance) :
    Option (Maintenance × Date) :=
  match m.performed_on with
  | none => acc
  | some d =>
    if m.category = MaintenanceCategory.maintenance then
      match acc with
      | none => some (m, d)
      | some (am, ad) => if ad.blt d then some (m, d) else some (am, ad)
    else acc

/-- most recent routine maintenance record, as the fold of the running
maximum over the records. -/
def lastRoutineMaint (ms : List Maintenance) : Option (Maintenance × Date) :=
  ms.foldl lastRoutineStep none

/-- maintenance reminder for one vehicle (get_dashboard lines 262-295): due
six months after the last routine maintenance; a never-maintained vehicle is
due today once more than 180 days past its manufacture date; no manufacture
date and no routine maintenance means no reminder. -/
def vehicleMaintenanceReminder (today : Date) (v : Vehicle) :
    Option MaintenanceReminder :=
  let lm := lastRoutineMaint v.maintenance
  let lastDate : Option Date := lm.map (·.2)
  let lastKm : Option Int := match lm with | some (m, _) => m.odometer_km | none => none
  let nextDue : Option Date :=
    match lastDate with
    | some d => some (d.addMonths 6)
    | none =>
      match v.manufacture_date with
      | some md => if 180 < today.toDays - md.toDays then some today else none
      | none => none
  match nextDue with
  | none => none
  | some due =>
    if due.ble (reminderThreshold today) then
      some
        { vehicle := v
          status := if lastDate.isNone then "尚無保養紀錄" else "已逾期 (時間)"
          last_maintenance_date := lastDate
          last_maintenance_km := lastKm }
    else none

/-- sort key of the inspection reminder list (get_dashboard line 298): the
next due date, or today when the entry has none. -/
def inspectionSortKey (today : Date) (r : InspectionReminder) : Date :=
  match r.next_due_date with | some d => d | none => today

/-- sort key of the maintenance reminder list (get_dashboard line 299): the
last maintenance date, or today when the entry has none. -/
def maintenanceSortKey (today : Date) (r : MaintenanceReminder) : Date :=
  match r.last_maintenance_date with | some d => d | none => today

/-- the dashboard reminder lists: active vehicles, per-vehicle inspection and
maintenance classification, then stable ascending sorts by the date keys
(get_dashboard lines 166-299). -/
def dashboardReminders (today : Date) (vehicles : List Vehicle) :
    List InspectionReminder × List MaintenanceReminder :=
  let active := vehicles.filter (fun v => decide (v.status = VehicleStatus.active))
  let ir := active.filterMap (vehicleInspectionReminder today)
  let mr := active.filterMap (vehicleMaintenanceReminder today)
  (ir.insertionSort
      (fun a b => (inspectionSortKey today a).ble (inspectionSortKey today b) = true),
   mr.insertionSort
      (fun a b => (maintenanceSortKey today a).ble (maintenanceSortKey today b) = true))

/-! Asset state reduction (src/app.py get_asset_log_list, lines 1517-1548). -/

/-- the description component of the composite asset key: the description
unless it is null or empty, in which case a placeholder scoped to the asset
type is substituted (line 1530, Python description or placeholder). -/
def assetKeyDesc (t : AssetType) (desc : Option String) : String :=
  match desc with
  | none => "__asset_type_" ++ t.value ++ "__"
  | some s => if s = "" then "__asset_type_" ++ t.value ++ "__" else s

/-- composite key of a custody event (line 1531). -/
def assetKey (log : VehicleAssetLog) : AssetType × String :=
  (log.asset_type, assetKeyDesc log.asset_type log.description)

/-- one Python dict assignment on an insertion-ordered association list:
overwrite in place when the key is present, append otherwise. -/
def mapInsert (m : List ((AssetType × String) × VehicleAssetLog))
    (k : AssetType × String) (v : VehicleAssetLog) :
    List ((AssetType × String) × VehicleAssetLog) :=
  if m.any (fun p => decide (p.1 = k)) then
    m.map (fun p => if p.1 = k then (k, v) else p)
  else m ++ [(k, v)]

/-- the per-key latest-event map, built by walking the given event list in
order and overwriting each key with the later event (lines 1526-1533 fold the
events oldest to newest). -/
def buildLatestAssetMap (logs : List VehicleAssetLog) :
    List ((AssetType × String) × VehicleAssetLog) :=
  logs.foldl (fun m log => mapInsert m (assetKey log) log) []

/-- the raw audit-trail view: all events sorted newest first by log date
(lines 1517-1523, the order_by desc query; tie order among equal dates is
unspecified at the database, here that of a stable sort). -/
def assetLogsDesc (logs : List VehicleAssetLog) : List VehicleAssetLog :=
  logs.insertionSort (fun a b => b.log_date.ble a.log_date = true)

/-- strict lexicographic order on character lists by code point, as Python
compares strings. -/
def charListLt : List Char → List Char → Bool
  | [], [] => false
  | [], _ :: _ => true
  | _ :: _, [] => false
  | c :: cs, d :: ds =>
    if c.toNat < d.toNat then true
    else if d.toNat < c.toNat then false
    else charListLt cs ds

/-- non-strict lexicographic order on a string triple, as Python compares the
three-string sort key tuples of line 1544. -/
def tripleLe (a b : String × String × String) : Bool :=
  if charListLt a.1.data b.1.data then true
  else if charListLt b.1.data a.1.data then false
  else if charListLt a.2.1.data b.2.1.data then true
  else if charListLt b.2.1.data a.2.1.data then false
  else !(charListLt b.2.2.data a.2.2.data)

/-- presentation sort key of a held asset (lines 1544-1548): status value,
asset type value, then description with null replaced by the empty string. -/
def assetSortKey (log : VehicleAssetLog) : String × String × String :=
  (log.status.value, log.asset_type.value,
    match log.description with | some s => s | none => "")

/-- the events in ascending date order, as iterated by the reversed walk of
line 1529 over the descending query result. -/
def ascAssetLogs (logs : List VehicleAssetLog) : List VehicleAssetLog :=
  (assetLogsDesc logs).reverse

/-- the latest-event values whose status is assigned or returned (lines
1538-1541). -/
def heldAssets (logs : List VehicleAssetLog) : List VehicleAssetLog :=
  ((buildLatestAssetMap (ascAssetLogs logs)).map (·.2)).filter
    (fun l => decide (l.status = AssetStatus.assigned)
      || decide (l.status = AssetStatus.returned))

/-- the reduced current-holdings list (lines 1525-1548): fold the events in
ascending date order into the latest-event map, keep the values whose status
is assigned or returned, and sort by the presentation key. -/
def currentAssets (logs : List VehicleAssetLog) : List VehicleAssetLog :=
  (heldAssets logs).insertionSort
    (fun a b => tripleLe (assetSortKey a) (assetSortKey b) = true)

/-! Fee-generation policy (create_or_update_maintenance, src/app.py lines
879-924, and create_or_update_inspection, lines 1162-1207). The surrounding
string-to-value conversions and the HTTP plumbing belong to the external CRUD
layer; the form is modelled with already-converted values. -/

/-- the converted form fields of a maintenance upsert request (lines
852-872 after the manual conversions of lines 890-902). -/
structure MaintenanceForm where
  vehicle_id : Option Nat
  category : MaintenanceCategory
  performed_on : Option Date
  return_date : Option Date
  user_id : Option Nat
  handler_id : Option Nat
  vendor : Option String
  odometer_km : Option Int
  service_target_km : Option Int
  amount : Option Rat
  is_reconciled : Bool
  notes : Option String
  handler_notes : Option String
deriving DecidableEq, Repr

/-- the converted form fields of an inspection upsert request (lines
1134-1155 after the conversions of lines 1173-1187). -/
structure InspectionForm where
  vehicle_id : Option Nat
  kind : InspectionKind
  notification_date : Option Date
  deadline_date : Option Date
  inspected_on : Option Date
  return_date : Option Date
  next_due_on : Option Date
  user_id : Option Nat
  handler_id : Option Nat
  amount : Option Rat
  is_reconciled : Bool
  result : Option String
  notes : Option String
  handler_notes : Option String
  notification_source : Option String
deriving DecidableEq, Repr

/-- field assignment of the maintenance form onto a record (lines 891-902);
every column except vehicle_id is overwritten. -/
def applyMaintenanceForm (m : Maintenance) (f : MaintenanceForm) : Maintenance :=
  { m with
    category := f.category
    performed_on := f.performed_on
    return_date := f.return_date
    user_id := f.user_id
    handler_id := f.handler_id
    vendor := f.vendor
    odometer_km := f.odometer_km
    service_target_km := f.service_target_km
    amount := f.amount
    is_reconciled := f.is_reconciled
    notes := f.notes
    handler_notes := f.handler_notes }

/-- field assignment of the inspection form onto a record (lines 1174-1187). -/
def applyInspectionForm (i : Inspection) (f : InspectionForm) : Inspection :=
  { i with
    kind := f.kind
    notification_date := f.notification_date
    deadline_date := f.deadline_date
    inspected_on := f.inspected_on
    return_date := f.return_date
    next_due_on := f.next_due_on
    user_id := f.user_id
    handler_id := f.handler_id
    amount := f.amount
    is_reconciled := f.is_reconciled
    result := f.result
    notes := f.notes
    handler_notes := f.handler_notes
    notification_source := f.notification_source }

/-- the fee record auto-built from a saved maintenance record (lines
904-923); the guard on the amount is the Python truthiness test together
with the strict comparison, which together demand a strictly positive
amount. The payee is the handler when present, else the user. -/
def maintenanceAutoFee (m : Maintenance) (f : MaintenanceForm) : Option Fee :=
  match m.amount with
  | none => none
  | some a =>
    if 0 < a then
      some
        { vehicle_id := some m.vehicle_id
          user_id := match f.handler_id with | some h => some h | none => f.user_id
          receive_date := m.performed_on
          request_date := m.performed_on
          fee_type :=
            if f.category = MaintenanceCategory.repair then FeeType.repair_parts
            else FeeType.maintenance_service
          amount := some a
          is_paid := f.is_reconciled
          notes := "自動建立 - " ++ maintenanceCategoryMap f.category ++ ": "
            ++ (match f.notes with | some s => s | none => "") }
    else none

/-- the fee record auto-built from a saved inspection record (lines
1189-1207); the receive and request dates fall back from inspected_on to the
notification date. -/
def inspectionAutoFee (i : Inspection) (f : InspectionForm) : Option Fee :=
  match i.amount with
  | none => none
  | some a =>
    if 0 < a then
      some
        { vehicle_id := some i.vehicle_id
          user_id := match f.handler_id with | some h => some h | none => f.user_id
          receive_date :=
            match i.inspected_on with | some d => some d | none => i.notification_date
          request_date :=
            match i.inspected_on with | some d => some d | none => i.notification_date
          fee_type := FeeType.inspection_fee
          amount := some a
          is_paid := f.is_reconciled
          notes := "自動建立 - 檢驗費: " ++ inspectionKindMap f.kind }
    else none

/-- the maintenance upsert (lines 879-925): update an existing record or
create one on a chosen vehicle, then append the auto fee when the saved
amount is strictly positive. The fee table is modelled as the list of
existing fee rows; the result is the saved record and the new fee table.
A create without a vehicle yields none (the HTTP 400 rejection). -/
def createOrUpdateMaintenance (existing : Option Maintenance)
    (f : MaintenanceForm) (fees : List Fee) : Option (Maintenance × List Fee) :=
  match existing with
  | some m0 =>
    let m := applyMaintenanceForm m0 f
    some (m, fees ++ (maintenanceAutoFee m f).toList)
  | none =>
    match f.vehicle_id with
    | none => none
    | some vid =>
      let base : Maintenance :=
        { vehicle_id := vid, user_id := none, handler_id := none
          category := f.category, vendor := none, performed_on := none
          return_date := none, service_target_km := none, odometer_km := none
          amount := none, is_reconciled := false, notes := none
          handler_notes := none }
      let m := applyMaintenanceForm base f
      some (m, fees ++ (maintenanceAutoFee m f).toList)

/-- the inspection upsert (lines 1162-1209), same shape as the maintenance
one. -/
def createOrUpdateInspection (existing : Option Inspection)
    (f : InspectionForm) (fees : List Fee) : Option (Inspection × List Fee) :=
  match existing with
  | some i0 =>
    let i := applyInspectionForm i0 f
    some (i, fees ++ (inspectionAutoFee i f).toList)
  | none =>
    match f.vehicle_id with
    | none => none
    | some vid =>
      let base : Inspection :=
        { vehicle_id := vid, user_id := none, handler_id := none
          kind := f.kind, result := none, notification_date := none
          notification_source := none, deadline_date := none
          inspected_on := none, return_date := none, next_due_on := none
          amount := none, is_reconciled := false, notes := none
          handler_notes := none }
      let i := applyInspectionForm base f
      some (i, fees ++ (inspectionAutoFee i f).toList)

/-! Concrete records for scenario instantiations. -/

/-- a completed periodic inspection performed on 2024-07-01. -/
def exInspJul : Inspection :=
  { vehicle_id := 1, user_id := none, handler_id := none, kind := .periodic
    result := none, notification_date := none, notification_source := none
    deadline_date := none, inspected_on := some ⟨2024, 7, 1⟩, return_date := none
    next_due_on := none, amount := none, is_reconciled := false, notes := none
    handler_notes := none }

/-- a notified but never completed inspection (null inspected_on). -/
def exInspPending : Inspection :=
  { vehicle_id := 1, user_id := none, handler_id := none, kind := .periodic
    result := none, notification_date := some ⟨2025, 2, 1⟩
    notification_source := none, deadline_date := some ⟨2025, 4, 30⟩
    inspected_on := none, return_date := none, next_due_on := none
    amount := none, is_reconciled := false, notes := none, handler_notes := none }

/-- an active car made on 2015-01-01, last inspected on 2024-07-01. -/
def exCar : Vehicle :=
  { plate_no := "CAR-001", vehicle_type := .car
    manufacture_date := some ⟨2015, 1, 1⟩, status := .active
    inspections := [exInspJul], maintenance := [] }

/-- an active car made on 2018-01-01 whose only inspection record was never
completed. -/
def exCarNoInsp : Vehicle :=
  { plate_no := "CAR-002", vehicle_type := .car
    manufacture_date := some ⟨2018, 1, 1⟩, status := .active
    inspections := [exInspPending], maintenance := [] }

/-- an active van made on 2023-01-01 with no inspection records. -/
def exVan : Vehicle :=
  { plate_no := "VAN-001", vehicle_type := .van
    manufacture_date := some ⟨2023, 1, 1⟩, status := .active
    inspections := [], maintenance := [] }

/-- an active truck made on 2019-03-15, last inspected on 2024-07-01. -/
def exTruck : Vehicle :=
  { plate_no := "TRK-001", vehicle_type := .truck
    manufacture_date := some ⟨2019, 3, 15⟩, status := .active
    inspections := [exInspJul], maintenance := [] }

/-- a completed repair record (not routine maintenance). -/
def exMaintRepair : Maintenance :=
  { vehicle_id := 1, user_id := none, handler_id := none, category := .repair
    vendor := none, performed_on := some ⟨2024, 3, 1⟩, return_date := none
    service_target_km := none, odometer_km := none, amount := none
    is_reconciled := false, notes := none, handler_notes := none }

/-- a routine maintenance record with no performed date. -/
def exMaintRoutineNoDate : Maintenance :=
  { vehicle_id := 1, user_id := none, handler_id := none
    category := .maintenance, vendor := none, performed_on := none
    return_date := none, service_target_km := none, odometer_km := none
    amount := none, is_reconciled := false, notes := none, handler_notes := none }

/-- an active van with no manufacture date, a repair and an undated routine
maintenance record. -/
def exVanNoMfg : Vehicle :=
  { plate_no := "VAN-002", vehicle_type := .van, manufacture_date := none
    status := .active, inspections := []
    maintenance := [exMaintRepair, exMaintRoutineNoDate] }

/-- an existing maintenance record that already carries an amount of 100. -/
def exMaintPrev : Maintenance :=
  { vehicle_id := 7, user_id := none, handler_id := some 3
    category := .maintenance, vendor := none, performed_on := some ⟨2024, 5, 1⟩
    return_date := none, service_target_km := none, odometer_km := some 50000
    amount := some 100, is_reconciled := false, notes := some "oil"
    handler_notes := none }

/-- an edit form that keeps the amount at 100. -/
def exMaintEditForm : MaintenanceForm :=
  { vehicle_id := some 7, category := .maintenance
    performed_on := some ⟨2024, 5, 1⟩, return_date := none, user_id := none
    handler_id := some 3, vendor := none, odometer_km := some 50000
    service_target_km := none, amount := some 100, is_reconciled := false
    notes := some "oil", handler_notes := none }

/-- a creation form for a repair of amount 1500 handled by employee 3. -/
def exRepairForm : MaintenanceForm :=
  { vehicle_id := some 7, category := .repair, performed_on := some ⟨2025, 2, 3⟩
    return_date := none, user_id := some 4, handler_id := some 3, vendor := none
    odometer_km := none, service_target_km := none, amount := some 1500
    is_reconciled := true, notes := some "brakes", handler_notes := none }

/-- a creation form for an inspection of amount 900 with no handler. -/
def exInspCreateForm : InspectionForm :=
  { vehicle_id := some 7, kind := .periodic
    notification_date := some ⟨2024, 12, 1⟩, deadline_date := none
    inspected_on := some ⟨2025, 1, 1⟩, return_date := none, next_due_on := none
    user_id := some 4, handler_id := none, amount := some 900
    is_reconciled := false, result := none, notes := none, handler_notes := none
    notification_source := none }

/-- custody events for one spare key: assigned, then returned, then lost. -/
def exLogAssigned : VehicleAssetLog :=
  { user_id := some 4, asset_type := .key, description := some "spare"
    status := .assigned, log_date := ⟨2024, 1, 1⟩ }

def exLogReturned : VehicleAssetLog :=
  { user_id := none, asset_type := .key, description := some "spare"
    status := .returned, log_date := ⟨2024, 6, 1⟩ }

def exLogLost : VehicleAssetLog :=
  { user_id := none, asset_type := .key, description := some "spare"
    status := .lost, log_date := ⟨2024, 7, 1⟩ }

/-! Order lemmas for the date comparisons. -/

theorem Date.blt_iff (a b : Date) :
    a.blt b = true ↔
      (a.year < b.year ∨ (a.year = b.year ∧
        (a.month < b.month ∨ (a.month = b.month ∧ a.day < b.day)))) := by
  simp [Date.blt]

theorem Date.ble_iff (a b : Date) :
    a.ble b = true ↔
      (a.year < b.year ∨ (a.year = b.year ∧
        (a.month < b.month ∨ (a.month = b.month ∧ a.day ≤ b.day)))) := by
  have h : a.ble b = true ↔ ¬ (b.blt a = true) := by simp [Date.ble]
  rw [h, Date.blt_iff]
  omega

theorem Date.ble_refl (a : Date) : a.ble a = true := by
  rw [Date.ble_iff]; omega

theorem Date.ble_trans {a b c : Date} (h1 : a.ble b = true) (h2 : b.ble c = true) :
    a.ble c = true := by
  rw [Date.ble_iff] at h1 h2 ⊢; omega

theorem Date.ble_total (a b : Date) : a.ble b = true ∨ b.ble a = true := by
  rw [Date.ble_iff, Date.ble_iff]; omega

theorem Date.blt_ble {a b : Date} (h : a.blt b = true) : a.ble b = true := by
  rw [Date.blt_iff] at h; rw [Date.ble_iff]; omega

theorem Date.ble_of_not_blt {a b : Date} (h : ¬ a.blt b = true) : b.ble a = true := by
  rw [Date.blt_iff] at h; rw [Date.ble_iff]; omega

theorem Date.not_blt_of_ble {a b : Date} (h : a.ble b = true) : ¬ b.blt a = true := by
  rw [Date.ble_iff] at h; rw [Date.blt_iff]; omega

/-! Characterisation lemmas for the running-maximum folds. -/

theorem Date.ble_antisymm {a b : Date} (h1 : a.ble b = true) (h2 : b.ble a = true) :
    a = b := by
  rw [Date.ble_iff] at h1 h2
  cases a; cases b
  simp only [Date.mk.injEq]
  simp only at h1 h2
  omega

theorem lastInsp_foldl_const {l : List Inspection} {acc : Option Date}
    (h : ∀ i ∈ l, i.inspected_on = none) : l.foldl lastInspStep acc = acc := by
  induction l generalizing acc with
  | nil => rfl
  | cons x xs ih =>
    rw [List.foldl_cons]
    have hx := h x (by simp)
    rw [show lastInspStep acc x = acc by simp [lastInspStep, hx]]
    exact ih (fun i hi => h i (by simp [hi]))

theorem lastInsp_foldl_none {l : List Inspection} {acc : Option Date}
    (h : l.foldl lastInspStep acc = none) :
    acc = none ∧ ∀ i ∈ l, i.inspected_on = none := by
  induction l generalizing acc with
  | nil => exact ⟨h, by simp⟩
  | cons x xs ih =>
    rw [List.foldl_cons] at h
    obtain ⟨h1, h2⟩ := ih h
    cases hx : x.inspected_on with
    | none =>
      refine ⟨by simpa [lastInspStep, hx] using h1, ?_⟩
      intro i hi
      rcases List.mem_cons.mp hi with hxeq | hxs
      · rw [hxeq]; exact hx
      · exact h2 i hxs
    | some d =>
      exfalso
      cases acc with
      | none => simp [lastInspStep, hx] at h1
      | some m =>
        rw [lastInspStep] at h1
        simp only [hx] at h1
        split at h1 <;> simp at h1

theorem lastInsp_foldl_some {l : List Inspection} {acc : Option Date} {d : Date}
    (h : l.foldl lastInspStep acc = some d) :
    (acc = some d ∨ ∃ i ∈ l, i.inspected_on = some d) ∧
      (∀ d0, acc = some d0 → d0.ble d = true) ∧
      (∀ i ∈ l, ∀ d', i.inspected_on = some d' → d'.ble d = true) := by
  induction l generalizing acc with
  | nil =>
    refine ⟨Or.inl h, fun d0 h0 => ?_, by simp⟩
    rw [h0] at h
    cases h
    exact Date.ble_refl d
  | cons x xs ih =>
    rw [List.foldl_cons] at h
    obtain ⟨hat, hub, hels⟩ := ih h
    have hstep : ∀ d0, lastInspStep acc x = some d0 → d0.ble d = true := by
      intro d0 h0
      rcases hat with hacc | ⟨i, hi, hid⟩
      · rw [hacc] at h0; cases h0; exact Date.ble_refl d
      · exact hub d0 h0
    constructor
    · rcases hat with hacc | ⟨i, hi, hid⟩
      · cases hx : x.inspected_on with
        | none =>
          left
          rw [lastInspStep, hx] at hacc
          exact hacc
        | some dx =>
          cases acc with
          | none =>
            simp only [lastInspStep, hx, Option.some.injEq] at hacc
            right
            exact ⟨x, by simp, by rw [hx, hacc]⟩
          | some m =>
            simp only [lastInspStep, hx] at hacc
            split at hacc
            · right
              injection hacc with h'
              exact ⟨x, by simp, by rw [hx, h']⟩
            · left
              injection hacc with h'
              rw [h']
      · right; exact ⟨i, by simp [hi], hid⟩
    refine ⟨fun d0 h0 => ?_, fun i hi d' hd' => ?_⟩
    · subst h0
      cases hx : x.inspected_on with
      | none => exact hstep d0 (by simp [lastInspStep, hx])
      | some dx =>
        by_cases hc : d0.blt dx = true
        · have h1 : dx.ble d = true := hstep dx (by simp [lastInspStep, hx, hc])
          exact Date.ble_trans (Date.blt_ble hc) h1
        · exact hstep d0 (by simp [lastInspStep, hx, hc])
    · rcases List.mem_cons.mp hi with hxeq | hxs
      · subst hxeq
        cases acc with
        | none => exact hstep d' (by simp [lastInspStep, hd'])
        | some m =>
          by_cases hc : m.blt d' = true
          · exact hstep d' (by simp [lastInspStep, hd', hc])
          · have h1 : m.ble d = true := hstep m (by simp [lastInspStep, hd', hc])
            exact Date.ble_trans (Date.ble_of_not_blt hc) h1
      · exact hels i hxs d' hd'

/-- the most recent completed inspection date is attained and dominates every
completed inspection date. -/
theorem lastInspectedOn_spec {l : List Inspection} {d : Date}
    (h : lastInspectedOn l = some d) :
    (∃ i ∈ l, i.inspected_on = some d) ∧
      ∀ i ∈ l, ∀ d', i.inspected_on = some d' → d'.ble d = true := by
  obtain ⟨hat, _, hels⟩ := lastInsp_foldl_some (h : l.foldl lastInspStep none = some d)
  refine ⟨?_, hels⟩
  rcases hat with hacc | hex
  · cases hacc
  · exact hex

/-- no completed inspection record means no most recent completed inspection
date, and conversely. -/
theorem lastInspectedOn_eq_none {l : List Inspection} :
    lastInspectedOn l = none ↔ ∀ i ∈ l, i.inspected_on = none := by
  constructor
  · intro h; exact (lastInsp_foldl_none h).2
  · intro h; exact lastInsp_foldl_const h

/-- the fold returns the maximum: any attained upper bound of the completed
inspection dates is the result. -/
theorem lastInspectedOn_eq_max {l : List Inspection} {d : Date}
    (hat : ∃ i ∈ l, i.inspected_on = some d)
    (hub : ∀ i ∈ l, ∀ d', i.inspected_on = some d' → d'.ble d = true) :
    lastInspectedOn l = some d := by
  cases h : lastInspectedOn l with
  | none =>
    obtain ⟨i, hi, hid⟩ := hat
    have := (lastInspectedOn_eq_none.mp h) i hi
    rw [this] at hid
    cases hid
  | some d' =>
    obtain ⟨⟨i, hi, hid⟩, hub'⟩ := lastInspectedOn_spec h
    have h1 : d'.ble d = true := hub i hi d' hid
    obtain ⟨j, hj, hjd⟩ := hat
    have h2 : d.ble d' = true := hub' j hj d hjd
    rw [Date.ble_antisymm h2 h1]

theorem lastRoutine_foldl_const {l : List Maintenance}
    {acc : Option (Maintenance × Date)}
    (h : ∀ m ∈ l, m.category = MaintenanceCategory.maintenance →
      m.performed_on = none) :
    l.foldl lastRoutineStep acc = acc := by
  induction l generalizing acc with
  | nil => rfl
  | cons x xs ih =>
    rw [List.foldl_cons]
    have hstep : lastRoutineStep acc x = acc := by
      cases hx : x.performed_on with
      | none => simp [lastRoutineStep, hx]
      | some d =>
        have hcat : ¬ x.category = MaintenanceCategory.maintenance := by
          intro hc
          rw [h x (by simp) hc] at hx
          cases hx
        simp [lastRoutineStep, hx, hcat]
    rw [hstep]
    exact ih (fun m hm => h m (by simp [hm]))

/-- a history with no completed routine maintenance record yields no most
recent routine maintenance. -/
theorem lastRoutineMaint_eq_none {l : List Maintenance}
    (h : ∀ m ∈ l, m.category = MaintenanceCategory.maintenance →
      m.performed_on = none) :
    lastRoutineMaint l = none :=
  lastRoutine_foldl_const h

/-! Lemmas on the asset state reduction. -/

theorem mapInsert_mem {m : List ((AssetType × String) × VehicleAssetLog)}
    {k : AssetType × String} {v : VehicleAssetLog}
    {kv : (AssetType × String) × VehicleAssetLog} (h : kv ∈ mapInsert m k v) :
    kv = (k, v) ∨ (kv ∈ m ∧ kv.1 ≠ k) := by
  by_cases hany : m.any (fun p => decide (p.1 = k)) = true
  · rw [mapInsert, if_pos hany] at h
    obtain ⟨p, hp, hpe⟩ := List.mem_map.mp h
    by_cases hc : p.1 = k
    · left; rw [← hpe, if_pos hc]
    · right; rw [← hpe, if_neg hc]; exact ⟨hp, hc⟩
  · rw [mapInsert, if_neg hany] at h
    rcases List.mem_append.mp h with h1 | h1
    · right
      refine ⟨h1, fun hk => hany ?_⟩
      exact List.any_eq_true.mpr ⟨kv, h1, by simp [hk]⟩
    · left; simpa using h1

theorem mapInsert_keys_nodup {m : List ((AssetType × String) × VehicleAssetLog)}
    {k : AssetType × String} {v : VehicleAssetLog}
    (h : (m.map Prod.fst).Nodup) : ((mapInsert m k v).map Prod.fst).Nodup := by
  by_cases hany : m.any (fun p => decide (p.1 = k)) = true
  · rw [mapInsert, if_pos hany]
    have heq : (m.map (fun p => if p.1 = k then (k, v) else p)).map Prod.fst
        = m.map Prod.fst := by
      rw [List.map_map]
      apply List.map_congr_left
      intro p _
      by_cases hc : p.1 = k
      · simp [hc]
      · simp [hc]
    rw [heq]; exact h
  · rw [mapInsert, if_neg hany, List.map_append]
    refine List.Nodup.append h (by simp) ?_
    intro a ha hb
    have hak : a = k := by simpa using hb
    subst hak
    obtain ⟨p, hp, hpk⟩ := List.mem_map.mp ha
    exact hany (List.any_eq_true.mpr ⟨p, hp, by simp [hpk]⟩)

theorem buildLatestAssetMap_append (l : List VehicleAssetLog)
    (x : VehicleAssetLog) :
    buildLatestAssetMap (l ++ [x])
      = mapInsert (buildLatestAssetMap l) (assetKey x) x := by
  simp [buildLatestAssetMap, List.foldl_append]

theorem buildLatestAssetMap_keys_nodup (l : List VehicleAssetLog) :
    ((buildLatestAssetMap l).map Prod.fst).Nodup := by
  induction l using List.reverseRecOn with
  | nil => simp [buildLatestAssetMap]
  | append_singleton l x ih =>
    rw [buildLatestAssetMap_append]
    exact mapInsert_keys_nodup ih

/-- every entry of the latest-event map built over a date-ascending event
list carries its own key, comes from the list, and date-dominates every event
of the list that shares its key. -/
theorem buildLatestAssetMap_spec {l : List VehicleAssetLog}
    (hs : l.Pairwise (fun a b => a.log_date.ble b.log_date = true)) :
    ∀ kv ∈ buildLatestAssetMap l,
      assetKey kv.2 = kv.1 ∧ kv.2 ∈ l ∧
        ∀ e ∈ l, assetKey e = kv.1 → e.log_date.ble kv.2.log_date = true := by
  induction l using List.reverseRecOn with
  | nil => simp [buildLatestAssetMap]
  | append_singleton l x ih =>
    rw [List.pairwise_append] at hs
    obtain ⟨hl, _, hdom⟩ := hs
    intro kv hkv
    rw [buildLatestAssetMap_append] at hkv
    rcases mapInsert_mem hkv with rfl | ⟨hmem, hne⟩
    · refine ⟨rfl, by simp, ?_⟩
      intro e he _
      rcases List.mem_append.mp he with he1 | he1
      · exact hdom e he1 x (by simp)
      · have hex : e = x := by simpa using he1
        subst hex
        exact Date.ble_refl _
    · obtain ⟨hk, hm, hdom'⟩ := ih hl kv hmem
      refine ⟨hk, List.mem_append.mpr (Or.inl hm), ?_⟩
      intro e he hke
      rcases List.mem_append.mp he with he1 | he1
      · exact hdom' e he1 hke
      · exfalso
        have hex : e = x := by simpa using he1
        subst hex
        exact hne hke.symm

theorem ascAssetLogs_pairwise (logs : List VehicleAssetLog) :
    (ascAssetLogs logs).Pairwise (fun a b => a.log_date.ble b.log_date = true) := by
  rw [ascAssetLogs, List.pairwise_reverse, assetLogsDesc]
  haveI : IsTotal VehicleAssetLog (fun a b => b.log_date.ble a.log_date = true) :=
    ⟨fun a b => Date.ble_total b.log_date a.log_date⟩
  haveI : IsTrans VehicleAssetLog (fun a b => b.log_date.ble a.log_date = true) :=
    ⟨fun _ _ _ h1 h2 => Date.ble_trans h2 h1⟩
  exact List.sorted_insertionSort _ logs

theorem mem_ascAssetLogs {logs : List VehicleAssetLog} {e : VehicleAssetLog} :
    e ∈ ascAssetLogs logs ↔ e ∈ logs := by
  rw [ascAssetLogs, List.mem_reverse, assetLogsDesc]
  exact (List.perm_insertionSort _ _).mem_iff

/-- a member of the current-holdings list passes the status filter, comes
from the input, and date-dominates every input event sharing its composite
key. -/
theorem mem_currentAssets {logs : List VehicleAssetLog} {v : VehicleAssetLog}
    (h : v ∈ currentAssets logs) :
    (v.status = AssetStatus.assigned ∨ v.status = AssetStatus.returned) ∧
      v ∈ logs ∧
      ∀ e ∈ logs, assetKey e = assetKey v → e.log_date.ble v.log_date = true := by
  rw [currentAssets] at h
  replace h := (List.perm_insertionSort _ _).mem_iff.mp h
  rw [heldAssets, List.mem_filter] at h
  obtain ⟨hmem, hpred⟩ := h
  obtain ⟨kv, hkv, hkve⟩ := List.mem_map.mp hmem
  obtain ⟨hk, hm, hdom⟩ :=
    buildLatestAssetMap_spec (ascAssetLogs_pairwise logs) kv hkv
  subst hkve
  refine ⟨by simpa using hpred, mem_ascAssetLogs.mp hm, ?_⟩
  intro e he hke
  exact hdom e (mem_ascAssetLogs.mpr he) (by rw [hke, hk])

/-- the current-holdings list never holds two entries with the same composite
key. -/
theorem currentAssets_keys_pairwise (logs : List VehicleAssetLog) :
    (currentAssets logs).Pairwise (fun a b => assetKey a ≠ assetKey b) := by
  have h1 := buildLatestAssetMap_keys_nodup (ascAssetLogs logs)
  have h2 : (buildLatestAssetMap (ascAssetLogs logs)).Pairwise
      (fun a b => a.1 ≠ b.1) := List.pairwise_map.mp h1
  have h3 : (buildLatestAssetMap (ascAssetLogs logs)).Pairwise
      (fun a b => assetKey a.2 ≠ assetKey b.2) := by
    refine List.Pairwise.imp_of_mem ?_ h2
    intro a b ha hb hne
    rw [(buildLatestAssetMap_spec (ascAssetLogs_pairwise logs) a ha).1,
      (buildLatestAssetMap_spec (ascAssetLogs_pairwise logs) b hb).1]
    exact hne
  have h4 : ((buildLatestAssetMap (ascAssetLogs logs)).map (·.2)).Pairwise
      (fun a b => assetKey a ≠ assetKey b) := List.pairwise_map.mpr h3
  have h5 : (heldAssets logs).Pairwise (fun a b => assetKey a ≠ assetKey b) :=
    h4.sublist (List.filter_sublist _)
  exact ((List.perm_insertionSort _ (heldAssets logs)).pairwise_iff
    (fun h => Ne.symm h)).mpr h5

/-! Claim theorems. -/

/-- claim C2: for every active car with a manufacture date, age under 5 years
yields no due date; age in [5, 10) yields the annual cadence with due date
equal to the maximum completed inspection date plus one year, else
manufacture date plus five years; age at least 10 yields the semiannual
cadence with due date equal to the maximum completed inspection date plus
six months regardless of earlier records, else manufacture date plus ten
years. -/
theorem claim_C2_car_rule (today md : Date) (v : Vehicle)
    (h_active : v.status = VehicleStatus.active)
    (h_type : v.vehicle_type = VehicleType.car)
    (h_md : v.manufacture_date = some md) :
    (yearsBetween today md < 5 →
      vehicleNextDue today v = none ∧
      (inspectionRule VehicleType.car (yearsBetween today md) md
        (lastInspectedOn v.inspections)).1 = "車齡 < 5 年 (免驗)") ∧
    (5 ≤ yearsBetween today md → yearsBetween today md < 10 →
      (inspectionRule VehicleType.car (yearsBetween today md) md
        (lastInspectedOn v.inspections)).1 = "每年 1 驗" ∧
      (∀ D, (∃ i ∈ v.inspections, i.inspected_on = some D) →
        (∀ i ∈ v.inspections, ∀ d', i.inspected_on = some d' → d'.ble D = true) →
        vehicleNextDue today v = some (D.addYears 1)) ∧
      ((∀ i ∈ v.inspections, i.inspected_on = none) →
        vehicleNextDue today v = some (md.addYears 5))) ∧
    (10 ≤ yearsBetween today md →
      (inspectionRule VehicleType.car (yearsBetween today md) md
        (lastInspectedOn v.inspections)).1 = "每年 2 驗" ∧
      (∀ D, (∃ i ∈ v.inspections, i.inspected_on = some D) →
        (∀ i ∈ v.inspections, ∀ d', i.inspected_on = some d' → d'.ble D = true) →
        vehicleNextDue today v = some (D.addMonths 6)) ∧
      ((∀ i ∈ v.inspections, i.inspected_on = none) →
        vehicleNextDue today v = some (md.addYears 10))) := by
  have hdue : vehicleNextDue today v
      = (inspectionRule VehicleType.car (yearsBetween today md) md
          (lastInspectedOn v.inspections)).2 := by
    rw [vehicleNextDue, h_md, h_type]
  refine ⟨fun h5 => ⟨?_, ?_⟩,
    fun h5 h10 => ⟨?_, fun D hat hub => ?_, fun hn => ?_⟩,
    fun h10 => ⟨?_, fun D hat hub => ?_, fun hn => ?_⟩⟩
  · rw [hdue]; simp [inspectionRule, h5]
  · simp [inspectionRule, h5]
  · simp [inspectionRule, show ¬ yearsBetween today md < 5 by omega, h10]
  · rw [hdue, lastInspectedOn_eq_max hat hub]
    simp [inspectionRule, show ¬ yearsBetween today md < 5 by omega, h10]
  · rw [hdue, lastInspectedOn_eq_none.mpr hn]
    simp [inspectionRule, show ¬ yearsBetween today md < 5 by omega, h10]
  · simp [inspectionRule, show ¬ yearsBetween today md < 5 by omega,
      show ¬ yearsBetween today md < 10 by omega]
  · rw [hdue, lastInspectedOn_eq_max hat hub]
    simp [inspectionRule, show ¬ yearsBetween today md < 5 by omega,
      show ¬ yearsBetween today md < 10 by omega]
  · rw [hdue, lastInspectedOn_eq_none.mpr hn]
    simp [inspectionRule, show ¬ yearsBetween today md < 5 by omega,
      show ¬ yearsBetween today md < 10 by omega]

/-- witness for claim C2 on the concrete ten-year-old car exCar, last
inspected 2024-07-01: its next due date is that date plus six months. -/
theorem claim_C2_car_rule_witness :
    vehicleNextDue ⟨2025, 6, 1⟩ exCar = some (Date.addMonths ⟨2024, 7, 1⟩ 6) :=
  ((claim_C2_car_rule ⟨2025, 6, 1⟩ ⟨2015, 1, 1⟩ exCar rfl rfl rfl).2.2
    (by decide)).2.1 ⟨2024, 7, 1⟩ (by decide) (by decide)

/-- claim C3: for every active van or truck with a manufacture date, age
under 5 yields the annual cadence with due date equal to the maximum
completed inspection date plus one year, else manufacture date plus one
year; age at least 5 yields the semiannual cadence with due date equal to
the maximum completed inspection date plus six months, else manufacture
date plus five years; in particular the van made 2023-01-01 with no
inspections, seen on 2024-02-01, is due 2024-01-01 and gets an overdue
reminder. -/
theorem claim_C3_van_truck_rule :
    (∀ (today md : Date) (v : Vehicle),
      v.status = VehicleStatus.active →
      (v.vehicle_type = VehicleType.van ∨ v.vehicle_type = VehicleType.truck) →
      v.manufacture_date = some md →
      (yearsBetween today md < 5 →
        (inspectionRule v.vehicle_type (yearsBetween today md) md
          (lastInspectedOn v.inspections)).1 = "每年 1 驗" ∧
        (∀ D, (∃ i ∈ v.inspections, i.inspected_on = some D) →
          (∀ i ∈ v.inspections, ∀ d', i.inspected_on = some d' → d'.ble D = true) →
          vehicleNextDue today v = some (D.addYears 1)) ∧
        ((∀ i ∈ v.inspections, i.inspected_on = none) →
          vehicleNextDue today v = some (md.addYears 1))) ∧
      (5 ≤ yearsBetween today md →
        (inspectionRule v.vehicle_type (yearsBetween today md) md
          (lastInspectedOn v.inspections)).1 = "每年 2 驗" ∧
        (∀ D, (∃ i ∈ v.inspections, i.inspected_on = some D) →
          (∀ i ∈ v.inspections, ∀ d', i.inspected_on = some d' → d'.ble D = true) →
          vehicleNextDue today v = some (D.addMonths 6)) ∧
        ((∀ i ∈ v.inspections, i.inspected_on = none) →
          vehicleNextDue today v = some (md.addYears 5)))) ∧
    vehicleNextDue ⟨2024, 2, 1⟩ exVan = some ⟨2024, 1, 1⟩ ∧
    (vehicleInspectionReminder ⟨2024, 2, 1⟩ exVan).map (·.is_overdue) = some true := by
  refine ⟨?_, by decide, by decide⟩
  intro today md v h_active h_type h_md
  have hdue : vehicleNextDue today v
      = (inspectionRule v.vehicle_type (yearsBetween today md) md
          (lastInspectedOn v.inspections)).2 := by
    rw [vehicleNextDue, h_md]
  refine ⟨fun h5 => ⟨?_, fun D hat hub => ?_, fun hn => ?_⟩,
    fun h5 => ⟨?_, fun D hat hub => ?_, fun hn => ?_⟩⟩
  · rcases h_type with h | h <;> rw [h] <;> simp [inspectionRule, h5]
  · rw [hdue, lastInspectedOn_eq_max hat hub]
    rcases h_type with h | h <;> rw [h] <;> simp [inspectionRule, h5]
  · rw [hdue, lastInspectedOn_eq_none.mpr hn]
    rcases h_type with h | h <;> rw [h] <;> simp [inspectionRule, h5]
  · rcases h_type with h | h <;> rw [h] <;>
      simp [inspectionRule, show ¬ yearsBetween today md < 5 by omega]
  · rw [hdue, lastInspectedOn_eq_max hat hub]
    rcases h_type with h | h <;> rw [h] <;>
      simp [inspectionRule, show ¬ yearsBetween today md < 5 by omega]
  · rw [hdue, lastInspectedOn_eq_none.mpr hn]
    rcases h_type with h | h <;> rw [h] <;>
      simp [inspectionRule, show ¬ yearsBetween today md < 5 by omega]

/-- witness for claim C3 on the concrete six-year-old truck exTruck, last
inspected 2024-07-01: its next due date is that date plus six months. -/
theorem claim_C3_van_truck_rule_witness :
    vehicleNextDue ⟨2025, 6, 1⟩ exTruck = some (Date.addMonths ⟨2024, 7, 1⟩ 6) :=
  ((claim_C3_van_truck_rule.1 ⟨2025, 6, 1⟩ ⟨2019, 3, 15⟩ exTruck rfl
    (Or.inr rfl) rfl).2 (by decide)).2.1 ⟨2024, 7, 1⟩ (by decide) (by decide)

/-- claim C5: for every active vehicle, no computed due date means no
inspection reminder; with a computed due date, a reminder is produced
exactly when the due date is at most today plus the one-month buffer, it
carries that due date, and its overdue flag holds exactly when the due date
is strictly before today. -/
theorem claim_C5_reminder_rule (today : Date) (v : Vehicle)
    (h_active : v.status = VehicleStatus.active) :
    (vehicleNextDue today v = none → vehicleInspectionReminder today v = none) ∧
    ∀ due, vehicleNextDue today v = some due →
      ((vehicleInspectionReminder today v).isSome = true ↔
        due.ble (today.addMonths 1) = true) ∧
      ∀ r, vehicleInspectionReminder today v = some r →
        r.next_due_date = some due ∧ (r.is_overdue = true ↔ due.blt today = true) := by
  cases hmd : v.manufacture_date with
  | none =>
    constructor
    · intro _; simp [vehicleInspectionReminder, hmd]
    · intro due hdue; simp [vehicleNextDue, hmd] at hdue
  | some md =>
    cases hrule : (inspectionRule v.vehicle_type (yearsBetween today md) md
        (lastInspectedOn v.inspections)).2 with
    | none =>
      have h1 : vehicleInspectionReminder today v = none := by
        simp [vehicleInspectionReminder, hmd, hrule]
      constructor
      · intro _; exact h1
      · intro due hdue
        simp only [vehicleNextDue, hmd] at hdue
        rw [hrule] at hdue
        cases hdue
    | some due0 =>
      have h1 : vehicleNextDue today v = some due0 := by
        simp only [vehicleNextDue, hmd]
        rw [hrule]
      constructor
      · intro h0; rw [h1] at h0; cases h0
      · intro due hdue
        rw [h1] at hdue
        injection hdue with hdd
        subst hdd
        by_cases hc : due0.ble (reminderThreshold today) = true
        · have h2 : vehicleInspectionReminder today v
              = some
                { vehicle := v
                  status :=
                    (if due0.blt today then "已逾期 (應驗日: "
                      else "即將到期 (應驗日: ") ++ formatDate due0 ++ ")"
                  last_inspection_date := lastInspectedOn v.inspections
                  next_due_date := some due0
                  is_overdue := due0.blt today } := by
            simp [vehicleInspectionReminder, hmd, hrule, hc]
          have hc' : due0.ble (today.addMonths 1) = true := hc
          refine ⟨by simp [h2, hc'], ?_⟩
          intro r hr
          rw [h2] at hr
          injection hr with hre
          subst hre
          exact ⟨rfl, Iff.rfl⟩
        · have h2 : vehicleInspectionReminder today v = none := by
            simp [vehicleInspectionReminder, hmd, hrule, hc]
          have hc' : ¬ due0.ble (today.addMonths 1) = true := hc
          refine ⟨by simp [h2, hc'], ?_⟩
          intro r hr
          rw [h2] at hr
          cases hr

/-- witness for claim C5 on the boundary scenario: the car made 2015-01-01
seen on 2025-06-01 with last inspection 2024-07-01 is due 2025-01-01, the
reminder exists and is flagged overdue. -/
theorem claim_C5_reminder_rule_witness :
    ((vehicleInspectionReminder ⟨2025, 6, 1⟩ exCar).isSome = true ↔
      Date.ble ⟨2025, 1, 1⟩ (Date.addMonths ⟨2025, 6, 1⟩ 1) = true) ∧
    ∀ r, vehicleInspectionReminder ⟨2025, 6, 1⟩ exCar = some r →
      r.next_due_date = some ⟨2025, 1, 1⟩ ∧
      (r.is_overdue = true ↔ Date.blt ⟨2025, 1, 1⟩ ⟨2025, 6, 1⟩ = true) :=
  (claim_C5_reminder_rule ⟨2025, 6, 1⟩ exCar rfl).2 ⟨2025, 1, 1⟩ (by decide)

/-- claim C8: the inspection reminder list is sorted ascending by due date
with a missing due date keyed as today, and the maintenance reminder list is
sorted ascending by last maintenance date with a missing date keyed as
today. -/
theorem claim_C8_reminder_sorting (today : Date) (vehicles : List Vehicle) :
    ((dashboardReminders today vehicles).1).Pairwise
      (fun a b =>
        (inspectionSortKey today a).ble (inspectionSortKey today b) = true) ∧
    ((dashboardReminders today vehicles).2).Pairwise
      (fun a b =>
        (maintenanceSortKey today a).ble (maintenanceSortKey today b) = true) := by
  constructor
  · haveI : IsTotal InspectionReminder
        (fun a b =>
          (inspectionSortKey today a).ble (inspectionSortKey today b) = true) :=
      ⟨fun a b => Date.ble_total _ _⟩
    haveI : IsTrans InspectionReminder
        (fun a b =>
          (inspectionSortKey today a).ble (inspectionSortKey today b) = true) :=
      ⟨fun _ _ _ => Date.ble_trans⟩
    simp only [dashboardReminders]
    exact List.sorted_insertionSort _ _
  · haveI : IsTotal MaintenanceReminder
        (fun a b =>
          (maintenanceSortKey today a).ble (maintenanceSortKey today b) = true) :=
      ⟨fun a b => Date.ble_total _ _⟩
    haveI : IsTrans MaintenanceReminder
        (fun a b =>
          (maintenanceSortKey today a).ble (maintenanceSortKey today b) = true) :=
      ⟨fun _ _ _ => Date.ble_trans⟩
    simp only [dashboardReminders]
    exact List.sorted_insertionSort _ _

/-- witness for claim C8 on a concrete two-vehicle fleet. -/
theorem claim_C8_reminder_sorting_witness :
    ((dashboardReminders ⟨2025, 6, 1⟩ [exCar, exVan]).1).Pairwise
      (fun a b =>
        (inspectionSortKey ⟨2025, 6, 1⟩ a).ble
          (inspectionSortKey ⟨2025, 6, 1⟩ b) = true) :=
  (claim_C8_reminder_sorting ⟨2025, 6, 1⟩ [exCar, exVan]).1

/-- claim C4: for any input event list, the current-holdings list has at most
one entry per composite key, and each entry comes from the input and
date-dominates every input event sharing its key. -/
theorem claim_C4_reducer_invariant (logs : List VehicleAssetLog) :
    (currentAssets logs).Pairwise (fun a b => assetKey a ≠ assetKey b) ∧
    ∀ v ∈ currentAssets logs,
      v ∈ logs ∧
        ∀ e ∈ logs, assetKey e = assetKey v → e.log_date.ble v.log_date = true :=
  ⟨currentAssets_keys_pairwise logs,
   fun _ hv => ⟨(mem_currentAssets hv).2.1, (mem_currentAssets hv).2.2⟩⟩

/-- witness for claim C4 on the concrete two-event history of one spare key:
the later returned event is the entry and dominates the earlier assignment. -/
theorem claim_C4_reducer_invariant_witness :
    exLogReturned ∈ currentAssets [exLogAssigned, exLogReturned] ∧
    exLogReturned ∈ ([exLogAssigned, exLogReturned] : List VehicleAssetLog) ∧
    Date.ble exLogAssigned.log_date exLogReturned.log_date = true := by
  have hm : exLogReturned ∈ currentAssets [exLogAssigned, exLogReturned] := by
    decide
  have h :=
    (claim_C4_reducer_invariant [exLogAssigned, exLogReturned]).2 exLogReturned hm
  exact ⟨hm, h.1, h.2 exLogAssigned (by decide) (by decide)⟩

/-- claim C6: a composite key whose strictly latest event is lost or disposed
contributes no entry to the current holdings, and every entry has status
assigned or returned. -/
theorem claim_C6_terminal_status (logs : List VehicleAssetLog)
    (e : VehicleAssetLog) (h_mem : e ∈ logs)
    (h_stat : e.status = AssetStatus.lost ∨ e.status = AssetStatus.disposed)
    (h_latest : ∀ e' ∈ logs, assetKey e' = assetKey e → e' ≠ e →
      e'.log_date.blt e.log_date = true) :
    (∀ v ∈ currentAssets logs, assetKey v ≠ assetKey e) ∧
    ∀ v ∈ currentAssets logs,
      v.status = AssetStatus.assigned ∨ v.status = AssetStatus.returned := by
  constructor
  · intro v hv hkey
    obtain ⟨hst, hvm, hdom⟩ := mem_currentAssets hv
    have h1 : e.log_date.ble v.log_date = true := hdom e h_mem hkey.symm
    by_cases hve : v = e
    · subst hve
      rcases h_stat with h | h <;> rcases hst with h' | h' <;> rw [h] at h' <;>
        cases h'
    · exact absurd (h_latest v hvm hkey hve) (Date.not_blt_of_ble h1)
  · intro v hv
    exact (mem_currentAssets hv).1

/-- witness for claim C6 on the concrete history where the spare key is
assigned and later lost: no holding carries that key. -/
theorem claim_C6_terminal_status_witness :
    (∀ v ∈ currentAssets [exLogAssigned, exLogLost],
      assetKey v ≠ assetKey exLogLost) ∧
    ∀ v ∈ currentAssets [exLogAssigned, exLogLost],
      v.status = AssetStatus.assigned ∨ v.status = AssetStatus.returned :=
  claim_C6_terminal_status [exLogAssigned, exLogLost] exLogLost (by decide)
    (Or.inl rfl) (by decide)

/-- counterexample to claim C1 as stated: the record exMaintPrev already
carries the amount 100, the edit resubmits the amount 100, and the upsert
nevertheless constructs one new fee row. -/
theorem claim_C1_counterexample :
    exMaintPrev.amount = some 100 ∧
    (createOrUpdateMaintenance (some exMaintPrev) exMaintEditForm []).map
      (fun p => p.2.length) = some 1 := by decide

/-- claim C1 (amended): an update of an existing maintenance or inspection
record never updates or removes an existing fee row (the fee table is only
appended to), and it constructs one new fee exactly when the submitted
amount is strictly positive, regardless of the amount previously on the
record. -/
theorem claim_C1_fee_on_update (m0 : Maintenance) (f : MaintenanceForm)
    (i0 : Inspection) (g : InspectionForm) (fees : List Fee) :
    (∃ newFee : Option Fee,
      createOrUpdateMaintenance (some m0) f fees
        = some (applyMaintenanceForm m0 f, fees ++ newFee.toList) ∧
      (newFee.isSome = true ↔ ∃ a, f.amount = some a ∧ 0 < a)) ∧
    (∃ newFee : Option Fee,
      createOrUpdateInspection (some i0) g fees
        = some (applyInspectionForm i0 g, fees ++ newFee.toList) ∧
      (newFee.isSome = true ↔ ∃ a, g.amount = some a ∧ 0 < a)) := by
  constructor
  · refine ⟨maintenanceAutoFee (applyMaintenanceForm m0 f) f, rfl, ?_⟩
    cases ha : f.amount with
    | none => simp [maintenanceAutoFee, applyMaintenanceForm, ha]
    | some a =>
      by_cases hp : (0 : Rat) < a
      · simp [maintenanceAutoFee, applyMaintenanceForm, ha, hp]
      · simp [maintenanceAutoFee, applyMaintenanceForm, ha, hp]
  · refine ⟨inspectionAutoFee (applyInspectionForm i0 g) g, rfl, ?_⟩
    cases ha : g.amount with
    | none => simp [inspectionAutoFee, applyInspectionForm, ha]
    | some a =>
      by_cases hp : (0 : Rat) < a
      · simp [inspectionAutoFee, applyInspectionForm, ha, hp]
      · simp [inspectionAutoFee, applyInspectionForm, ha, hp]

/-- witness for claim C1 on the concrete edit of exMaintPrev. -/
theorem claim_C1_fee_on_update_witness :
    (∃ newFee : Option Fee,
      createOrUpdateMaintenance (some exMaintPrev) exMaintEditForm []
        = some (applyMaintenanceForm exMaintPrev exMaintEditForm,
            [] ++ newFee.toList) ∧
      (newFee.isSome = true ↔ ∃ a, exMaintEditForm.amount = some a ∧ 0 < a)) :=
  (claim_C1_fee_on_update exMaintPrev exMaintEditForm exInspJul
    exInspCreateForm []).1

/-- claim C7: a create of a maintenance or inspection record with a null or
non-positive amount constructs no fee; with a strictly positive amount it
constructs exactly one fee with the same amount, the category mapped to
repair parts for repairs, maintenance service otherwise, inspection fee for
inspections, the payee resolved handler first, else user, else null, and the
settlement flag equal to the reconciliation flag. -/
theorem claim_C7_fee_on_create (vid : Nat) (f : MaintenanceForm)
    (g : InspectionForm) (fees : List Fee)
    (hfv : f.vehicle_id = some vid) (hgv : g.vehicle_id = some vid) :
    ((f.amount = none ∨ ∃ a, f.amount = some a ∧ ¬ 0 < a) →
      (createOrUpdateMaintenance none f fees).map (·.2) = some fees) ∧
    (∀ a, f.amount = some a → 0 < a →
      ∃ m, createOrUpdateMaintenance none f fees = some (m, fees ++
        [{ vehicle_id := some vid
           user_id := match f.handler_id with | some h => some h | none => f.user_id
           receive_date := f.performed_on
           request_date := f.performed_on
           fee_type :=
             if f.category = MaintenanceCategory.repair then FeeType.repair_parts
             else FeeType.maintenance_service
           amount := some a
           is_paid := f.is_reconciled
           notes := "自動建立 - " ++ maintenanceCategoryMap f.category ++ ": "
             ++ (match f.notes with | some s => s | none => "") }])) ∧
    ((g.amount = none ∨ ∃ a, g.amount = some a ∧ ¬ 0 < a) →
      (createOrUpdateInspection none g fees).map (·.2) = some fees) ∧
    (∀ a, g.amount = some a → 0 < a →
      ∃ i, createOrUpdateInspection none g fees = some (i, fees ++
        [{ vehicle_id := some vid
           user_id := match g.handler_id with | some h => some h | none => g.user_id
           receive_date :=
             match g.inspected_on with | some d => some d | none => g.notification_date
           request_date :=
             match g.inspected_on with | some d => some d | none => g.notification_date
           fee_type := FeeType.inspection_fee
           amount := some a
           is_paid := g.is_reconciled
           notes := "自動建立 - 檢驗費: " ++ inspectionKindMap g.kind }])) := by
  refine ⟨?_, ?_, ?_, ?_⟩
  · rintro (ha | ⟨a, ha, hp⟩) <;>
      simp [createOrUpdateMaintenance, hfv, maintenanceAutoFee,
        applyMaintenanceForm, ha, *]
  · intro a ha hp
    refine ⟨applyMaintenanceForm
      { vehicle_id := vid, user_id := none, handler_id := none
        category := f.category, vendor := none, performed_on := none
        return_date := none, service_target_km := none, odometer_km := none
        amount := none, is_reconciled := false, notes := none
        handler_notes := none } f, ?_⟩
    simp [createOrUpdateMaintenance, hfv, maintenanceAutoFee,
      applyMaintenanceForm, ha, hp]
  · rintro (ha | ⟨a, ha, hp⟩) <;>
      simp [createOrUpdateInspection, hgv, inspectionAutoFee,
        applyInspectionForm, ha, *]
  · intro a ha hp
    refine ⟨applyInspectionForm
      { vehicle_id := vid, user_id := none, handler_id := none
        kind := g.kind, result := none, notification_date := none
        notification_source := none, deadline_date := none
        inspected_on := none, return_date := none, next_due_on := none
        amount := none, is_reconciled := false, notes := none
        handler_notes := none } g, ?_⟩
    simp [createOrUpdateInspection, hgv, inspectionAutoFee,
      applyInspectionForm, ha, hp]

/-- witness for claim C7: creating a repair of amount 1500 handled by
employee 3 yields exactly one repair-parts fee of 1500 payable to 3. -/
theorem claim_C7_fee_on_create_witness :
    ∃ m, createOrUpdateMaintenance none exRepairForm []
      = some (m,
        [{ vehicle_id := some 7, user_id := some 3
           receive_date := some ⟨2025, 2, 3⟩, request_date := some ⟨2025, 2, 3⟩
           fee_type := FeeType.repair_parts, amount := some 1500
           is_paid := true, notes := "自動建立 - 維修: brakes" }]) := by
  have h := (claim_C7_fee_on_create 7 exRepairForm exInspCreateForm [] rfl
    rfl).2.1 1500 rfl (by decide)
  exact h

/-- counterexample to claim C9 as stated: a car whose only inspection record
was never completed still gets a computed due date and an inspection
reminder, not a no-due-date or no-reminder outcome. -/
theorem claim_C9_counterexample :
    exCarNoInsp.manufacture_date = some ⟨2018, 1, 1⟩ ∧
    (∀ i ∈ exCarNoInsp.inspections, i.inspected_on = none) ∧
    vehicleNextDue ⟨2025, 6, 1⟩ exCarNoInsp = some ⟨2023, 1, 1⟩ ∧
    (vehicleInspectionReminder ⟨2025, 6, 1⟩ exCarNoInsp).isSome = true := by
  decide

/-- claim C9 (amended): the engine computations are total functions over
their inputs; a missing manufacture date yields no due date and no
inspection reminder, an empty or never-completed inspection history is
treated as having no last inspection and feeds the manufacture-date
fallback rules rather than erroring, an empty custody history yields empty
holdings, and an empty maintenance history with a missing manufacture date
yields no maintenance reminder. -/
theorem claim_C9_totality (today : Date) (v : Vehicle) :
    (v.manufacture_date = none →
      vehicleNextDue today v = none ∧ vehicleInspectionReminder today v = none) ∧
    ((∀ i ∈ v.inspections, i.inspected_on = none) →
      lastInspectedOn v.inspections = none) ∧
    (v.inspections = [] → lastInspectedOn v.inspections = none) ∧
    (currentAssets [] = []) ∧
    (v.maintenance = [] → lastRoutineMaint v.maintenance = none) ∧
    (v.maintenance = [] → v.manufacture_date = none →
      vehicleMaintenanceReminder today v = none) := by
  refine ⟨fun hmd => ?_, fun h => lastInspectedOn_eq_none.mpr h,
    fun h => ?_, by decide, fun h => ?_, fun hm hmd => ?_⟩
  · exact ⟨by simp [vehicleNextDue, hmd], by simp [vehicleInspectionReminder, hmd]⟩
  · rw [h]; rfl
  · rw [h]; rfl
  · have h1 : lastRoutineMaint v.maintenance = none := by rw [hm]; rfl
    simp [vehicleMaintenanceReminder, h1, hmd]

/-- witness for claim C9 on the concrete vehicle exVanNoMfg with no
manufacture date. -/
theorem claim_C9_totality_witness :
    vehicleNextDue ⟨2025, 6, 1⟩ exVanNoMfg = none ∧
    vehicleInspectionReminder ⟨2025, 6, 1⟩ exVanNoMfg = none :=
  (claim_C9_totality ⟨2025, 6, 1⟩ exVanNoMfg).1 rfl

/-- claim C10: an active vehicle with no manufacture date and no completed
routine maintenance record produces no maintenance reminder; the
never-maintained 180-day rule applies only with a manufacture date. -/
theorem claim_C10_no_mfg_no_maint (today : Date) (v : Vehicle)
    (h_md : v.manufacture_date = none)
    (h_maint : ∀ m ∈ v.maintenance,
      m.category = MaintenanceCategory.maintenance → m.performed_on = none) :
    vehicleMaintenanceReminder today v = none := by
  have h1 : lastRoutineMaint v.maintenance = none :=
    lastRoutineMaint_eq_none h_maint
  simp [vehicleMaintenanceReminder, h1, h_md]

/-- witness for claim C10 on the concrete vehicle exVanNoMfg, which has a
completed repair and an undated routine maintenance record but no
manufacture date. -/
theorem claim_C10_no_mfg_no_maint_witness :
    vehicleMaintenanceReminder ⟨2025, 6, 1⟩ exVanNoMfg = none :=
  claim_C10_no_mfg_no_maint ⟨2025, 6, 1⟩ exVanNoMfg rfl (by decide)

end VehicleMgmt
